import Mathlib

/-!
Verification development for the melange Python client package.

The package under study consists of three Python modules:
* `melange/types.py` — type aliases `ObjectType`, `Relation` (both strings),
  a frozen dataclass `Object (type, id)` and a frozen dataclass
  `Decision (allowed)`;
* `melange/checker.py` — a placeholder `Checker` class whose constructor and
  `check` method unconditionally raise `NotImplementedError`;
* `melange/__init__.py` — re-exports.

The accompanying specification also describes the check-evaluation engine the
stub fronts (rewrite combinators, visited-set cycle safety, depth bound,
fail-closed client boundary).  That engine is not part of the sources, so it
is modelled here from the specification text, clearly marked as such; the
stub and the dataclasses are translated from the Python sources directly.
-/

namespace Melange

/-- `ObjectType` from types.py: `NewType("ObjectType", str)` — a string. -/
abbrev ObjectType := String

/-- `Relation` from types.py: `NewType("Relation", str)` — a string. -/
abbrev Relation := String

/-- The frozen dataclass `Object` from types.py, fields `type : ObjectType`
and `id : str`. -/
structure Object where
  type : ObjectType
  id : String
deriving DecidableEq

/-- The frozen dataclass `Decision` from types.py.  Its single field is
`allowed : bool`; the source class has no other field. -/
structure Decision where
  allowed : Bool
deriving DecidableEq

/-- Python runtime errors raised by the package: `NotImplementedError` raised
by the `Checker` stub, and `FrozenInstanceError` raised by assignment to a
field of a frozen dataclass instance. -/
inductive PyError where
  | notImplementedError
  | frozenInstanceError
deriving DecidableEq

/-- The generated `__eq__` of the frozen dataclass `Object`
(`@dataclass(frozen=True, slots=True)` with default `eq=True` compares the
tuple of fields). -/
def Object.eq (a b : Object) : Bool :=
  decide (a.type = b.type) && decide (a.id = b.id)

/-- The generated `__eq__` of the frozen dataclass `Decision` (field-tuple
comparison on the single field `allowed`). -/
def Decision.eq (a b : Decision) : Bool :=
  decide (a.allowed = b.allowed)

/-- Attribute assignment on a frozen dataclass instance: `frozen=True` makes
the generated `__setattr__` of `Object` raise `FrozenInstanceError`
unconditionally, so no updated instance is ever produced. -/
def Object.setAttr (o : Object) (field : String) (value : String) :
    Except PyError Object :=
  .error .frozenInstanceError

/-- A deterministic stand-in for the platform string hash used by Python.
The generated `__hash__` of a frozen dataclass only requires the hash to be
a function of the field values; the concrete mixing constants are
immaterial to the properties proved below. -/
def pyStrHash (s : String) : Nat :=
  s.foldl (fun h c => (h * 1000003 + c.toNat) % 2 ^ 64) 0

/-- Hash of a tuple of component hashes, the shape `hash((f1, f2, ...))`
produced by the generated `__hash__` of a frozen dataclass. -/
def pyTupleHash (l : List Nat) : Nat :=
  l.foldl (fun h x => (h * 1000003 + x) % 2 ^ 64) 5381

/-- The generated `__hash__` of the frozen dataclass `Object`: hash of the
tuple of its fields. -/
def Object.pyHash (o : Object) : Nat :=
  pyTupleHash [pyStrHash o.type, pyStrHash o.id]

/-- The generated `__hash__` of the frozen dataclass `Decision`: hash of the
tuple holding its single boolean field. -/
def Decision.pyHash (d : Decision) : Nat :=
  pyTupleHash [if d.allowed then 1 else 0]

/-- The `Checker` class from checker.py.  The class body declares no
instance attributes (the constructor raises before storing anything). -/
structure Checker where
deriving DecidableEq

/-- `Checker.__init__` from checker.py: raises `NotImplementedError`
unconditionally, for every database argument. -/
def Checker.init {α : Type} (db : α) : Except PyError Checker :=
  .error .notImplementedError

/-- `Checker.check` from checker.py: raises `NotImplementedError`
unconditionally; it never returns a `Decision`. -/
def Checker.check (c : Checker) (subject : Object) (relation : Relation)
    (object : Object) : Except PyError Decision :=
  .error .notImplementedError

/-- Modelled from the spec: `Decision` as the specification's data model
describes it — the allowed flag "plus, internally, the snapshot token it was
computed against".  Snapshot tokens are opaque monotonically comparable
markers, modelled as naturals.  This definition follows the spec's words and
exists only to be compared against the source `Decision` above. -/
structure DecisionSpec where
  allowed : Bool
  snapshotToken : Nat
deriving DecidableEq

/-- Modelled from the spec: a tuple's subject field is "a concrete Object or
a Userset reference", where a userset is an `(object, relation)` pair. -/
inductive Subject where
  | obj (o : Object)
  | userset (o : Object) (relation : Relation)
deriving DecidableEq

/-- Modelled from the spec: a stored relationship fact
`(object, relation, subject)`. -/
structure RTuple where
  object : Object
  relation : Relation
  subject : Subject
deriving DecidableEq

/-- Modelled from the spec: the per-relation rewrite expression, one of
`Direct`, `ComputedUserset(relation)`,
`TupleToUserset(tupleset_relation, computed_relation)`, `Union`,
`Intersection`, `Exclusion(base, subtract)`.  The n-ary `Union`/`Intersection`
of the spec are taken in their two-operand form, which is how every claim and
scenario states them; wider forms are nestings of this one. -/
inductive RewriteExpr where
  | direct
  | computedUserset (relation : Relation)
  | tupleToUserset (tuplesetRelation : Relation) (computedRelation : Relation)
  | union (a b : RewriteExpr)
  | intersection (a b : RewriteExpr)
  | exclusion (base subtract : RewriteExpr)
deriving DecidableEq

/-- Modelled from the spec: a loaded model maps each relation name to its
rewrite expression. -/
abbrev Model := List (Relation × RewriteExpr)

/-- Modelled from the spec: a snapshot's view of the Tuple Store is the set
of facts visible at the pinned token; all reads of one check go against this
one view. -/
abbrev Store := List RTuple

/-- Modelled from the spec: the error taxonomy of the Check Evaluator, the
kinds a pure evaluation can exhibit (`StoreUnavailable` and
`TimeoutExceeded` concern I/O and wall clocks outside this model). -/
inductive EvalError where
  | unknownRelation
  | evaluationDepthExceeded
deriving DecidableEq

/-- Modelled from the spec: `readTuples(object, relation, snapshot)` of the
Tuple Store interface — the subjects of all stored tuples with the given
object and relation. -/
def readTuples (store : Store) (obj : Object) (rel : Relation) :
    List Subject :=
  (store.filter (fun t => decide (t.object = obj) && decide (t.relation = rel))).map
    (fun t => t.subject)

/-- Modelled from the spec: the related objects reached by following direct
tuples of the tupleset relation, for `TupleToUserset` — each direct tuple
with a concrete object subject yields that object. -/
def directObjects (store : Store) (obj : Object) (rel : Relation) :
    List Object :=
  (readTuples store obj rel).filterMap
    (fun s => match s with
      | .obj o => some o
      | .userset _ _ => none)

/-- Modelled from the spec: aggregation of two union branches — return
allowed as soon as any branch is allowed (a sibling's error is overridden by
a success); if no branch is allowed, a branch error propagates; otherwise
not-allowed. -/
def orElseRes : Except EvalError Bool → Except EvalError Bool →
    Except EvalError Bool
  | .ok true, _ => .ok true
  | .ok false, r => r
  | .error _, .ok true => .ok true
  | .error e, _ => .error e

/-- Modelled from the spec: aggregation of two intersection branches —
short-circuit to not-allowed as soon as any branch is not-allowed; otherwise
any branch error fails the whole conjunction; otherwise allowed. -/
def andThenRes : Except EvalError Bool → Except EvalError Bool →
    Except EvalError Bool
  | .ok false, _ => .ok false
  | .ok true, r => r
  | .error _, .ok false => .ok false
  | .error e, _ => .error e

/-- Modelled from the spec: `Exclusion(base, subtract)` — if the base is
not allowed, not-allowed without consulting the subtrahend; otherwise
`allowed AND NOT subtract_allowed`, with a subtrahend error propagated. -/
def exclRes : Except EvalError Bool → Except EvalError Bool →
    Except EvalError Bool
  | .ok false, _ => .ok false
  | .ok true, .ok b => .ok (!b)
  | .ok true, .error e => .error e
  | .error e, _ => .error e

/-- Modelled from the spec: resolution of a list of matched subjects for a
`Direct` node — a concrete object subject matching the checked subject is a
success; a userset subject is checked recursively through the supplied
relation checker; results aggregate with union semantics. -/
def evalSubjectsF (recur : Object → Relation → Except EvalError Bool)
    (subject : Object) : List Subject → Except EvalError Bool
  | [] => .ok false
  | .obj o :: rest =>
      orElseRes (.ok (decide (o = subject))) (evalSubjectsF recur subject rest)
  | .userset o2 r2 :: rest =>
      orElseRes (recur o2 r2) (evalSubjectsF recur subject rest)

/-- Modelled from the spec: one step of plan interpretation — the exhaustive
dispatcher over the closed combinator set.  `recur` is the relation-checking
continuation used wherever the plan dereferences a relation (userset
subjects of `Direct`, `ComputedUserset`, and the computed relation of
`TupleToUserset`); combinator operands evaluate in the same context. -/
def evalExprF (recur : Object → Relation → Except EvalError Bool)
    (store : Store) (subject : Object) (obj : Object) (rel : Relation) :
    RewriteExpr → Except EvalError Bool
  | .direct => evalSubjectsF recur subject (readTuples store obj rel)
  | .computedUserset r2 => recur obj r2
  | .tupleToUserset ts cr =>
      evalSubjectsF recur subject
        ((directObjects store obj ts).map (fun o2 => Subject.userset o2 cr))
  | .union a b =>
      orElseRes (evalExprF recur store subject obj rel a)
        (evalExprF recur store subject obj rel b)
  | .intersection a b =>
      andThenRes (evalExprF recur store subject obj rel a)
        (evalExprF recur store subject obj rel b)
  | .exclusion base sub =>
      exclRes (evalExprF recur store subject obj rel base)
        (evalExprF recur store subject obj rel sub)

/-- Modelled from the spec: the recursive check of a relation on an object.
Each call carries the visited set of `(object, relation)` pairs of the
active path; re-entering a visited pair fails closed (`ok false`), the cycle
defense.  The depth budget decreases at each relation dereference; an
exhausted budget surfaces `EvaluationDepthExceeded`; a relation absent from
the model surfaces `UnknownRelation`. -/
def checkRel (model : Model) (store : Store) (subject : Object) :
    Nat → List (Object × Relation) → Object → Relation →
    Except EvalError Bool
  | 0, visited, obj, rel =>
      if (obj, rel) ∈ visited then .ok false
      else .error .evaluationDepthExceeded
  | fuel + 1, visited, obj, rel =>
      if (obj, rel) ∈ visited then .ok false
      else
        match model.lookup rel with
        | none => .error .unknownRelation
        | some e =>
            evalExprF
              (fun o2 r2 =>
                checkRel model store subject fuel ((obj, rel) :: visited) o2 r2)
              store subject obj rel e

/-- Modelled from the spec: the Check Evaluator's entry point —
`check(subject, relation, object, snapshot)` produces a `Decision` or fails
with an evaluation error.  The snapshot argument is the pinned store view;
the visited set starts empty and `maxDepth` is the configured recursion
budget. -/
def checkEval (model : Model) (store : Store) (maxDepth : Nat)
    (subject : Object) (rel : Relation) (obj : Object) :
    Except EvalError Decision :=
  (checkRel model store subject maxDepth [] obj rel).map
    (fun b => Decision.mk b)

/-- Modelled from the spec: the client-facing boundary of the check API —
every internal error resolves to a not-allowed `Decision` (fail closed is
the default; fail open only on explicit request, which this boundary does
not implement). -/
def checkClosed (model : Model) (store : Store) (maxDepth : Nat)
    (subject : Object) (rel : Relation) (obj : Object) : Decision :=
  match checkEval model store maxDepth subject rel obj with
  | .ok d => d
  | .error _ => Decision.mk false

/-- Concrete object `user:123` used by the spec's scenarios. -/
def user123 : Object := ⟨"user", "123"⟩

/-- Concrete object `user:999` used by the spec's scenarios. -/
def user999 : Object := ⟨"user", "999"⟩

/-- Concrete object `repository:456` used by the spec's scenarios. -/
def repo456 : Object := ⟨"repository", "456"⟩

/-- The relation name `can_read` of the spec's scenarios. -/
def canRead : Relation := "can_read"

/-- Model for scenarios 1 and 2: `can_read` is a direct relation. -/
def model3 : Model := [(canRead, RewriteExpr.direct)]

/-- Store for scenario 1: the single tuple
`(repository:456, can_read, user:123)`. -/
def store3 : Store := [⟨repo456, canRead, Subject.obj user123⟩]

/-- Concrete object `group:1` of the cycle-safety scenario. -/
def g1 : Object := ⟨"group", "1"⟩

/-- Concrete object `group:2` of the cycle-safety scenario. -/
def g2 : Object := ⟨"group", "2"⟩

/-- The relation name `member` of the cycle-safety scenario. -/
def memberRel : Relation := "member"

/-- Model for the cycle-safety scenario: `member` is a direct relation. -/
def model6 : Model := [(memberRel, RewriteExpr.direct)]

/-- Store for the cycle-safety scenario: group 1 contains group 2's members
and group 2 contains group 1's members — a membership cycle in tuple data. -/
def store6 : Store :=
  [⟨g1, memberRel, Subject.userset g2 memberRel⟩,
   ⟨g2, memberRel, Subject.userset g1 memberRel⟩]

/-- Claim C1: the client-facing check fails closed — whenever the evaluation
errors, the client boundary resolves to a not-allowed Decision, and the
boundary reports allowed only when the evaluation genuinely resolved to an
allowed Decision (never from an error). -/
theorem claim_C1_fail_closed (model : Model) (store : Store) (d : Nat)
    (s : Object) (r : Relation) (o : Object) :
    (∀ e, checkEval model store d s r o = Except.error e →
        checkClosed model store d s r o = Decision.mk false) ∧
    ((checkClosed model store d s r o).allowed = true →
        checkEval model store d s r o = Except.ok (Decision.mk true)) := by
  constructor
  · intro e he
    simp [checkClosed, he]
  · intro ha
    unfold checkClosed at ha
    cases h : checkEval model store d s r o with
    | ok dec =>
        rw [h] at ha
        cases dec with
        | mk b =>
            cases b with
            | false => simp at ha
            | true => rfl
    | error e =>
        rw [h] at ha
        simp at ha

/-- Witness for claim C1: on the empty model the evaluation errors with
`UnknownRelation`, and the client boundary indeed resolves it to the
not-allowed Decision. -/
theorem claim_C1_witness :
    checkClosed [] [] 1 user123 canRead repo456 = Decision.mk false :=
  (claim_C1_fail_closed [] [] 1 user123 canRead repo456).1
    EvalError.unknownRelation rfl

/-- Claim C2: the stub checker always fails — for every database argument
the constructor raises `NotImplementedError`, and for every
(subject, relation, object) triple `Checker.check` raises
`NotImplementedError` rather than returning a Decision. -/
theorem claim_C2_stub_always_fails {α : Type} (db : α) (c : Checker)
    (s : Object) (r : Relation) (o : Object) :
    Checker.init db = Except.error PyError.notImplementedError ∧
    Checker.check c s r o = Except.error PyError.notImplementedError :=
  ⟨rfl, rfl⟩

/-- Claim C3: with the tuple `(repository:456, can_read, user:123)` written,
`check(user:123, can_read, repository:456)` resolves allowed; with no
matching tuple for user 999, `check(user:999, can_read, repository:456)`
resolves not-allowed. -/
theorem claim_C3_scenarios :
    checkEval model3 store3 5 user123 canRead repo456 =
      Except.ok (Decision.mk true) ∧
    checkEval model3 store3 5 user999 canRead repo456 =
      Except.ok (Decision.mk false) :=
  ⟨rfl, rfl⟩

/-- Claim C4: for every evaluation context (relation-checking continuation,
store, subject, object, relation) and branch expressions that resolve to
booleans, a Union node resolves to their OR, an Intersection node to their
AND, and an Exclusion node to base AND NOT subtrahend. -/
theorem claim_C4_combinator_algebra
    (recur : Object → Relation → Except EvalError Bool)
    (store : Store) (subject obj : Object) (rel : Relation)
    (a b : RewriteExpr) (x y : Bool)
    (ha : evalExprF recur store subject obj rel a = Except.ok x)
    (hb : evalExprF recur store subject obj rel b = Except.ok y) :
    evalExprF recur store subject obj rel (RewriteExpr.union a b) =
      Except.ok (x || y) ∧
    evalExprF recur store subject obj rel (RewriteExpr.intersection a b) =
      Except.ok (x && y) ∧
    evalExprF recur store subject obj rel (RewriteExpr.exclusion a b) =
      Except.ok (x && !y) := by
  refine ⟨?_, ?_, ?_⟩ <;>
    simp [evalExprF, ha, hb] <;>
    cases x <;> cases y <;>
    simp [orElseRes, andThenRes, exclRes]

/-- Witness for claim C4: instantiated with the trivial continuation and
two Direct branches over the empty store, both of which resolve to false. -/
theorem claim_C4_witness :
    evalExprF (fun _ _ => Except.ok false) [] user123 repo456 canRead
      (RewriteExpr.union RewriteExpr.direct RewriteExpr.direct) =
      Except.ok false ∧
    evalExprF (fun _ _ => Except.ok false) [] user123 repo456 canRead
      (RewriteExpr.intersection RewriteExpr.direct RewriteExpr.direct) =
      Except.ok false ∧
    evalExprF (fun _ _ => Except.ok false) [] user123 repo456 canRead
      (RewriteExpr.exclusion RewriteExpr.direct RewriteExpr.direct) =
      Except.ok false :=
  claim_C4_combinator_algebra (fun _ _ => Except.ok false) [] user123 repo456
    canRead RewriteExpr.direct RewriteExpr.direct false false rfl rfl

/-- Claim C5: check is deterministic and idempotent at the call level — the
evaluation is a pure function of the model, the snapshot view of the store,
the depth budget and the (subject, relation, object) triple, so two
invocations with identical arguments produce the identical outcome, be it a
Decision or an error. -/
theorem claim_C5_deterministic (model : Model) (store : Store) (d : Nat)
    (s : Object) (r : Relation) (o : Object) :
    checkEval model store d s r o = checkEval model store d s r o := rfl

/-- Claim C6: on the tuple graph with a membership cycle (group 1 contains
group 2's members, group 2 contains group 1's members), the check of a
subject in neither group resolves to the deterministic not-allowed Decision
— not an error, and the total evaluation function cannot hang. -/
theorem claim_C6_cycle_terminates :
    checkEval model6 store6 10 user123 memberRel g1 =
      Except.ok (Decision.mk false) := rfl

/-- Claim C7: Object equality is by fields — two Objects compare equal
exactly when their type fields agree and their id fields agree. -/
theorem claim_C7_object_eq_by_fields (a b : Object) :
    Object.eq a b = true ↔ (a.type = b.type ∧ a.id = b.id) := by
  simp [Object.eq]

/-- Claim C8: Object is frozen — every attempt to assign to a field raises
`FrozenInstanceError` and yields no updated instance, so the fields of an
Object never change after construction. -/
theorem claim_C8_object_frozen (o : Object) (field : String) (v : String) :
    Object.setAttr o field v = Except.error PyError.frozenInstanceError :=
  rfl

/-- Counterexample for claim C9: the source `Decision` carries only the
allowed flag, so no accessor on it can recover the snapshot token the
spec-side Decision carries — witnessed by two spec decisions sharing the
allowed flag true but holding the distinct tokens 0 and 1. -/
theorem claim_C9_counterexample :
    ¬ ∃ tok : Decision → Nat,
        ∀ ds : DecisionSpec, tok (Decision.mk ds.allowed) = ds.snapshotToken := by
  rintro ⟨tok, h⟩
  have h0 := h ⟨true, 0⟩
  have h1 := h ⟨true, 1⟩
  simp at h0 h1
  omega

/-- Claim C9 as amended: a Decision exposes its allowed flag, and it carries
nothing else — every Decision value is fully determined by that boolean, and
in particular carries no snapshot token. -/
theorem claim_C9_amended (b : Bool) (d : Decision) :
    (Decision.mk b).allowed = b ∧ Decision.mk d.allowed = d :=
  ⟨rfl, rfl⟩

/-- Claim C10: the generated hashes of Object and Decision are consistent
with their generated equalities — equal values hash equally, as required
for use as set members and dictionary keys. -/
theorem claim_C10_hash_consistent (a b : Object) (d1 d2 : Decision) :
    (Object.eq a b = true → Object.pyHash a = Object.pyHash b) ∧
    (Decision.eq d1 d2 = true → Decision.pyHash d1 = Decision.pyHash d2) := by
  constructor
  · intro h
    simp [Object.eq] at h
    obtain ⟨ht, hi⟩ := h
    simp [Object.pyHash, ht, hi]
  · intro h
    simp [Decision.eq] at h
    simp [Decision.pyHash, h]

/-- Witness for claim C10: concrete equal values hash equally. -/
theorem claim_C10_witness :
    Object.pyHash user123 = Object.pyHash user123 ∧
    Decision.pyHash (Decision.mk true) = Decision.pyHash (Decision.mk true) :=
  ⟨(claim_C10_hash_consistent user123 user123 ⟨true⟩ ⟨true⟩).1 (by decide),
   (claim_C10_hash_consistent user123 user123 ⟨true⟩ ⟨true⟩).2 (by decide)⟩

end Melange
